import Mathlib

/-!
Verification of the article-scraper pipeline (`fixed_scraper.py`, `web_app.py`)
against its natural-language specification.

The development shallowly embeds the Python source: pure helpers become Lean
functions over `List Char` / `String` (modelling Python `str` semantics),
HTML documents become a tree of nodes, the HTTP layer is modelled by an
oracle giving the outcome of each attempt (transport success with a status
code, or one of the exception classes caught by the source), and the
orchestrator's shared `scraping_status` flag is modelled by the sequence of
values the loop reads.  External libraries (CSS selector matching of
`soup.select`, `urllib.parse.urljoin`, the HTML parser) are oracle
parameters; everything written in the repository itself is translated
directly from its code.
-/

namespace PaChong

/-! ## Python string primitives (modelled over the character list) -/

/-- Characters remaining after Python `str.strip()`. -/
def stripChars (l : List Char) : List Char :=
  ((l.dropWhile Char.isWhitespace).reverse.dropWhile Char.isWhitespace).reverse

/-- Python `s.strip()`. -/
def pyStrip (s : String) : String := ⟨stripChars s.data⟩

/-- Python `s.startswith(pre)`. -/
def pyStartsWith (s pre : String) : Bool := pre.data.isPrefixOf s.data

/-- Python `s.endswith(suf)`. -/
def pyEndsWith (s suf : String) : Bool := suf.data.isSuffixOf s.data

/-- Occurrence of a pattern anywhere in a character list. -/
def subOccurs (pat : List Char) : List Char → Bool
  | [] => pat.isEmpty
  | c :: rest => pat.isPrefixOf (c :: rest) || subOccurs pat rest

/-- Python `pat in s` for strings. -/
def pyIn (pat s : String) : Bool := subOccurs pat.data s.data

/-- Python `s.lower()`. -/
def pyLower (s : String) : String := ⟨s.data.map Char.toLower⟩

/-- Python `sep.join(parts)`. -/
def pyJoin (sep : String) : List String → String
  | [] => ""
  | [x] => x
  | x :: xs => x ++ sep ++ pyJoin sep xs

/-- Python `len(s)` (code points). -/
def pyLen (s : String) : Nat := s.data.length

/-- Python slicing `s[:n]`. -/
def pyTake (n : Nat) (s : String) : String := ⟨s.data.take n⟩

/-- Python slicing `s[n:]`. -/
def pyDrop (n : Nat) (s : String) : String := ⟨s.data.drop n⟩

/-- Python `s.split()[0]` of a stripped non-empty string: the leading run of
non-whitespace characters. -/
def firstToken (s : String) : String := ⟨s.data.takeWhile (fun c => !c.isWhitespace)⟩

/-- Python `s.replace(",", "")`. -/
def removeCommas (s : String) : String := ⟨s.data.filter (fun c => !(c = ','))⟩

/-- First maximal run of decimal digits anywhere in the list, as produced by
`re.findall(r"\d+", text)[0]` when a digit exists. -/
def firstDigitRun : List Char → Option (List Char)
  | [] => none
  | c :: cs => if c.isDigit then some (c :: cs.takeWhile Char.isDigit) else firstDigitRun cs

/-- Python `int(...)` on a string of decimal digits. -/
def digitsToNat (l : List Char) : Nat :=
  l.foldl (fun n c => n * 10 + (c.toNat - '0'.toNat)) 0

/-- Truthiness of a Python value of type `str | None`: falsy iff `None` or `""`. -/
def pyFalsy : Option String → Bool
  | none => true
  | some s => s.data.isEmpty

/-! ## HTML documents

BeautifulSoup trees are modelled as a node tree; a parsed soup is the list
of top-level nodes.  `NodeList` is a bespoke list so that all traversals are
structural recursions the kernel can evaluate. -/

mutual

inductive Node where
  | text (s : String)
  | elem (tag : String) (attrs : List (String × String)) (children : NodeList)

inductive NodeList where
  | nil
  | cons (n : Node) (ns : NodeList)

end

/-- Embed a plain list of nodes. -/
def nodesOf : List Node → NodeList
  | [] => .nil
  | n :: ns => .cons n (nodesOf ns)

/-- Element with no attributes (shorthand for building documents). -/
def el (tag : String) (cs : List Node) : Node := .elem tag [] (nodesOf cs)

/-- A parsed document: BeautifulSoup's top-level contents. -/
abbrev Doc := NodeList

/-- Oracle for CSS selector matching: `soup.select(selector)` in document
order.  CSS semantics live in an external library, so they are a parameter. -/
abbrev Css := String → Doc → List Node

mutual

def nodeTexts : Node → List String
  | .text s => [s]
  | .elem _ _ cs => listTexts cs

def listTexts : NodeList → List String
  | .nil => []
  | .cons n ns => nodeTexts n ++ listTexts ns

end

/-- BeautifulSoup `element.text` / `get_text()`: concatenation of all
descendant strings. -/
def elemText (n : Node) : String := pyJoin "" (nodeTexts n)

/-- BeautifulSoup `get_text(strip=True)`. -/
def getTextStrip (n : Node) : String := pyJoin "" ((nodeTexts n).map pyStrip)

/-- BeautifulSoup `get_text(sep, strip=True)`: each string stripped,
whitespace-only strings dropped, the rest joined by `sep`. -/
def getTextSepStrip (sep : String) (n : Node) : String :=
  pyJoin sep (((nodeTexts n).map pyStrip).filter (fun s => !s.data.isEmpty))

mutual

def findAllNode (p : String → Bool) : Node → List Node
  | .text _ => []
  | .elem t a cs => (if p t then [Node.elem t a cs] else []) ++ findAllList p cs

def findAllList (p : String → Bool) : NodeList → List Node
  | .nil => []
  | .cons n ns => findAllNode p n ++ findAllList p ns

end

/-- BeautifulSoup `element.find_all(...)`: matches among descendants only. -/
def childFindAll (p : String → Bool) : Node → List Node
  | .text _ => []
  | .elem _ _ cs => findAllList p cs

mutual

def stripTagsNode (bad : List String) : Node → Option Node
  | .text s => some (.text s)
  | .elem t a cs => if bad.contains t then none else some (.elem t a (stripTagsList bad cs))

def stripTagsList (bad : List String) : NodeList → NodeList
  | .nil => .nil
  | .cons n ns =>
    match stripTagsNode bad n with
    | none => stripTagsList bad ns
    | some m => .cons m (stripTagsList bad ns)

end

mutual

def nodeString : Node → Option String
  | .text s => some s
  | .elem _ _ cs => listSingleString cs

def listSingleString : NodeList → Option String
  | .cons c .nil => nodeString c
  | _ => none

end

/-- BeautifulSoup `tag.get(key)`: attribute lookup. -/
def getAttr (key : String) : Node → Option String
  | .text _ => none
  | .elem _ attrs _ => (attrs.find? (fun p => p.1 = key)).map (fun p => p.2)

/-- Number of `<a>` elements in the document (`len(soup.find_all("a"))`). -/
def countAnchors (d : Doc) : Nat := (findAllList (fun t => t = "a") d).length

/-! ## Configuration and the fetch layer -/

/-- The slice of the scraper configuration the pipeline reads
(`FixedWebScraper.__init__`). -/
structure ScraperConfig where
  selectors : String → Option String
  max_retries : Nat
  retry_delay : ℚ
  min_read_count : Nat
  min_interaction_count : Nat

/-- A transport-level successful HTTP response (`requests.Response`), already
decoded to text. -/
structure Response where
  status_code : Nat
  text : String
deriving DecidableEq

/-- The exception classes distinguished by `make_request`'s handlers. -/
inductive ExcKind where
  | ssl
  | conn
  | timeout
  | reqExc
  | unexpected
deriving DecidableEq

/-- Outcome of one `session.get` attempt: a transported response (any status
code) or a raised exception. -/
inductive Attempt where
  | ok (resp : Response)
  | fail (k : ExcKind)
deriving DecidableEq

/-- Observable trace of one `make_request` call: number of attempts
performed, the sleeps between consecutive attempts, and the failure class
logged if the call gave up. -/
structure FetchTrace where
  attempts : Nat
  sleeps : List ℚ
  failure : Option ExcKind
deriving DecidableEq

/-- The retry loop of `FixedWebScraper.make_request`, from attempt index `i`
with `fuel` loop iterations remaining.  `att` gives each attempt's outcome
and `jit` the value drawn by `random.uniform(0, 1)` before each retry. -/
def makeRequestLoop (cfg : ScraperConfig) (att : Nat → Attempt) (jit : Nat → ℚ) :
    Nat → Nat → Option Response × FetchTrace
  | _, 0 => (none, ⟨0, [], none⟩)
  | i, fuel + 1 =>
    match att i with
    | .ok r => (some r, ⟨1, [], none⟩)
    | .fail .unexpected => (none, ⟨1, [], some .unexpected⟩)
    | .fail k =>
      if i < cfg.max_retries - 1 then
        let d := cfg.retry_delay * 2 ^ i + jit i
        let rest := makeRequestLoop cfg att jit (i + 1) fuel
        (rest.1, ⟨rest.2.attempts + 1, d :: rest.2.sleeps, rest.2.failure⟩)
      else (none, ⟨1, [], some k⟩)

/-- `FixedWebScraper.make_request`: up to `max_retries` attempts; a response
transported at all (any status) is returned at once; `SSLError`,
`ConnectionError`, `Timeout` and other `RequestException`s are retried after
an exponential backoff with jitter; an unexpected exception aborts
immediately; exhaustion returns `None`. -/
def make_request (cfg : ScraperConfig) (att : Nat → Attempt) (jit : Nat → ℚ) :
    Option Response × FetchTrace :=
  makeRequestLoop cfg att jit 0 cfg.max_retries

/-! ## Field extraction (`FixedWebScraper.extract_text` / `extract_number` /
`extract_content`) -/

/-- `FixedWebScraper.extract_text`, translated exactly as written: the method
body consists only of the missing-selector guard (`if not selector: return
''`).  When a selector IS configured the function falls off the end and
returns Python `None` (`none` here); the select/trim/truncate code intended
for it sits unreachable inside `extract_content` after that function's final
`return`, referencing names (`selector`, `field`, `max_length`) that are not
in scope there.  The document and `max_length` arguments are therefore never
read. -/
def extract_text (cfg : ScraperConfig) (_css : Css) (_soup : Doc) (field : String)
    (_max_length : Option Nat) : Option String :=
  match cfg.selectors field with
  | none => some ""
  | some sel => if sel.data.isEmpty then some "" else none

/-- Modelled from the spec: `extractText(doc, field, maxLength?)` selects the
first element matching the field's selector, returns its trimmed visible
text, truncated with an ellipsis marker if `maxLength` is given and the text
is longer; empty string when no selector is configured or no element
matches.  (This also matches the unreachable block at the end of the
source's `extract_content`, which is `extract_text`'s intended body.) -/
def extractTextSpec (cfg : ScraperConfig) (css : Css) (soup : Doc) (field : String)
    (max_length : Option Nat) : String :=
  match cfg.selectors field with
  | none => ""
  | some sel =>
    if sel.data.isEmpty then ""
    else
      match (css sel soup).head? with
      | none => ""
      | some e =>
        let t := pyStrip (elemText e)
        match max_length with
        | some m => if 0 < m && m < pyLen t then pyTake m t ++ "..." else t
        | none => t

/-- `FixedWebScraper.extract_number`: first element matched by the field's
selector; its text stripped, commas removed, first digit run parsed;
`0` on missing selector, no match, or no digits. -/
def extract_number (cfg : ScraperConfig) (css : Css) (soup : Doc) (field : String) : Nat :=
  match cfg.selectors field with
  | none => 0
  | some sel =>
    if sel.data.isEmpty then 0
    else
      match (css sel soup).head? with
      | none => 0
      | some e =>
        match firstDigitRun (removeCommas (pyStrip (elemText e))).data with
        | some ds => digitsToNat ds
        | none => 0

/-- Largest-text structural block: final step of the content cascade. -/
def contentStep5 (cleaned : Doc) : String :=
  let candidates := findAllList (fun t => t = "div" || t = "section" || t = "main") cleaned
  let best := candidates.foldl
    (fun b n =>
      let nt := getTextSepStrip "\n" n
      if pyLen b < pyLen nt then nt else b)
    ""
  pyStrip best

/-- Join of the paragraph texts of length at least 20, as in the cascade's
paragraph steps. -/
def paragraphsText (ps : List Node) : String :=
  pyStrip (pyJoin "\n" ((ps.map (getTextSepStrip " ")).filter (fun p => 20 ≤ pyLen p)))

/-- Whole-document paragraph step of the content cascade. -/
def contentStep4 (cleaned : Doc) : String :=
  let t := paragraphsText (findAllList (fun tg => tg = "p") cleaned)
  if 200 ≤ pyLen t then t else contentStep5 cleaned

/-- First-`<article>` paragraph step of the content cascade. -/
def contentStep3 (cleaned : Doc) : String :=
  match (findAllList (fun tg => tg = "article") cleaned).head? with
  | some art =>
    let t := paragraphsText (childFindAll (fun tg => tg = "p") art)
    if 200 ≤ pyLen t then t else contentStep4 cleaned
  | none => contentStep4 cleaned

/-- `FixedWebScraper.extract_content`: strip script/style/noscript, then try
the `content` selector, the first `<article>`'s long paragraphs, the whole
document's long paragraphs, and finally the largest div/section/main
block. -/
def extract_content (cfg : ScraperConfig) (css : Css) (soup : Doc) : String :=
  let cleaned := stripTagsList ["script", "style", "noscript"] soup
  match cfg.selectors "content" with
  | some sel =>
    if sel.data.isEmpty then contentStep3 cleaned
    else
      match (css sel cleaned).head? with
      | some e => getTextSepStrip "\n" e
      | none => contentStep3 cleaned
  | none => contentStep3 cleaned

/-! ## Classifier -/

/-- `FixedWebScraper.is_bestseller` (identical in
`configurable_scraper.WebScraper`): strict threshold comparison on the read
count and on the combined interaction count. -/
def is_bestseller (cfg : ScraperConfig) (read_count interaction_count : Nat) : Bool :=
  decide (cfg.min_read_count < read_count) && decide (cfg.min_interaction_count < interaction_count)

/-! ## Detail-page parsing (`FixedWebScraper.parse_article_detail`) -/

/-- One article record: the dict built by `parse_article_detail`.  String
fields have type `Option String` because Python values there are
`str | None`. -/
structure ArticleRecord where
  title : Option String
  author : Option String
  publish_time : Option String
  read_count : Nat
  like_count : Nat
  collect_count : Nat
  summary : Option String
  content : Option String
  detail_url : String
  is_bestseller : Bool
  status_code : Option Nat
  error : Option String
deriving DecidableEq

/-- The record returned when `make_request` yields nothing
(`parse_article_detail`, failure branch). -/
def requestFailedRecord (detail_url : String) : ArticleRecord :=
  { title := some "", author := some "", publish_time := some "",
    read_count := 0, like_count := 0, collect_count := 0,
    summary := some "", content := some "", detail_url := detail_url,
    is_bestseller := false, status_code := none, error := some "request_failed" }

/-- Fallback document title, line for line:
`(soup.title.string or "").strip() if soup.title and soup.title.string else ""`. -/
def docTitleFallback (soup : Doc) : String :=
  match (findAllList (fun tg => tg = "title") soup).head? with
  | some t =>
    match nodeString t with
    | some s => if s.data.isEmpty then "" else pyStrip s
    | none => ""
  | none => ""

/-- `FixedWebScraper.parse_article_detail` given the outcome of its
`make_request` call (`fetched`) and the HTML parser oracle.  The source's
outer `try/except` only converts parser exceptions to `None`; the embedding
is total, so the success branch always produces a record. -/
def parseArticleDetailFetched (cfg : ScraperConfig) (css : Css) (parseHtml : String → Doc)
    (fetched : Option Response) (detail_url : String) : Option ArticleRecord :=
  match fetched with
  | none => some (requestFailedRecord detail_url)
  | some resp =>
    let soup := parseHtml resp.text
    let title0 := extract_text cfg css soup "title" none
    let title1 := if pyFalsy title0 then some (docTitleFallback soup) else title0
    let author := extract_text cfg css soup "author" none
    let publish_time := extract_text cfg css soup "publish_time" none
    let read_count := extract_number cfg css soup "read_count"
    let like_count := extract_number cfg css soup "like_count"
    let collect_count := extract_number cfg css soup "collect_count"
    let summary0 := extract_text cfg css soup "summary" (some 200)
    let content := extract_content cfg css soup
    let summary1 :=
      if pyFalsy summary0 && !content.data.isEmpty then
        some (pyTake 200 content ++ (if 200 < pyLen content then "..." else ""))
      else summary0
    let title2 := if pyFalsy title1 then some detail_url else title1
    let interaction_count := like_count + collect_count
    some { title := title2, author := author, publish_time := publish_time,
           read_count := read_count, like_count := like_count,
           collect_count := collect_count, summary := summary1,
           content := some content, detail_url := detail_url,
           is_bestseller := is_bestseller cfg read_count interaction_count,
           status_code := some resp.status_code,
           error := if resp.status_code = 200 then none
                    else some ("http_" ++ toString resp.status_code) }

/-- `FixedWebScraper.parse_article_detail`: fetch the detail page through
`make_request`, then extract the record. -/
def parse_article_detail (cfg : ScraperConfig) (css : Css) (parseHtml : String → Doc)
    (att : Nat → Attempt) (jit : Nat → ℚ) (detail_url : String) : Option ArticleRecord :=
  parseArticleDetailFetched cfg css parseHtml (make_request cfg att jit).1 detail_url

/-! ## Link discovery (`FixedWebScraper.fetch_article_links`) -/

/-- The anchor-text boilerplate keywords excluded by the link filter. -/
def excludeKeywords : List String :=
  ["登录", "注册", "帮助", "关于", "联系", "反馈", "更多", "首页", "地图", "招聘"]

/-- The file extensions discarded by the link filter. -/
def badExtensions : List String :=
  [".apk", ".jpg", ".jpeg", ".png", ".gif", ".css", ".js", ".pdf", ".zip"]

/-- One iteration of the link loop for an anchor whose `href` attribute is a
truthy string: normalization, scheme repair, extension filter, heuristic
noise filters, and resolution against the page URL. -/
def processHref (page_url : String) (uj : String → String → String)
    (href text : String) : Option String :=
  let h1 := pyStrip href
  let h2 := if h1.data.isEmpty then h1 else firstToken h1
  let h3 := if pyStartsWith h2 "https:/" && !pyStartsWith h2 "https://" then
              "https://" ++ pyDrop 7 h2
            else h2
  let h4 := if pyStartsWith h3 "http:/" && !pyStartsWith h3 "http://" then
              "http://" ++ pyDrop 6 h3
            else h3
  let lower := pyLower h4
  if badExtensions.any (fun e => pyEndsWith lower e) then none
  else if pyLen text < 4 then none
  else if pyLen h4 < 10 then none
  else if pyStartsWith h4 "javascript" || pyStartsWith h4 "#" then none
  else if excludeKeywords.any (fun kw => pyIn kw text) then none
  else some (uj page_url h4)

/-- Candidate produced by one matched element of the article-links selector:
skipped entirely when the `href` attribute is missing or falsy. -/
def anchorCandidate (page_url : String) (uj : String → String → String)
    (n : Node) : Option String :=
  match getAttr "href" n with
  | none => none
  | some h => if h.data.isEmpty then none else processHref page_url uj h (getTextStrip n)

/-- The valid links collected by the loop of `fetch_article_links`. -/
def discoveredLinks (cfg : ScraperConfig) (uj : String → String → String) (css : Css)
    (page_url : String) (soup : Doc) : List String :=
  let sel := (cfg.selectors "article_links").getD "a"
  (css sel soup).filterMap (anchorCandidate page_url uj)

/-- `FixedWebScraper.fetch_article_links`: empty on fetch failure; otherwise
the filtered links, with the degenerate-page fallback returning the page URL
itself when no link survived AND the page has no `<a>` element at all. -/
def fetch_article_links (cfg : ScraperConfig) (uj : String → String → String) (css : Css)
    (parseHtml : String → Doc) (att : Nat → Attempt) (jit : Nat → ℚ)
    (page_url : String) : List String :=
  match (make_request cfg att jit).1 with
  | none => []
  | some resp =>
    let soup := parseHtml resp.text
    let links := discoveredLinks cfg uj css page_url soup
    if links.isEmpty then
      if countAnchors soup = 0 then [page_url] else []
    else links

/-! ## Orchestrator (`web_app.py`) -/

/-- Observable events of the page loop of
`WebScraperWithProgress.fetch_multiple_pages`. -/
inductive PageEvent where
  | fetching (page : Nat) (url : String)
  | noLinks (page : Nat)
  | got (page : Nat) (count : Nat) (total : Nat)
  | stopped (page : Nat)
deriving DecidableEq

/-- Page URL construction: base URL for page 1, then `page=N` appended with
`&` if the base already has a query string, else `?`. -/
def pageUrl (base : String) (page : Nat) : String :=
  if 1 < page then base ++ (if pyIn "?" base then "&" else "?") ++ "page=" ++ toString page
  else base

/-- The page loop, from page number `page` with `fuel` iterations left.
`flag` is the value of `scraping_status["is_running"]` read at the top of
each iteration; `pageLinks` the result of the `fetch_article_links` call for
a page URL.  Returns the accumulated links, the last value written to
`scraping_status["total_articles"]` (starting from `tot`), and the events. -/
def fmpLoop (base : String) (flag : Nat → Bool) (pageLinks : String → List String) :
    Nat → Nat → List String → Nat → List String × Nat × List PageEvent
  | _, 0, acc, tot => (acc, tot, [])
  | page, fuel + 1, acc, tot =>
    if flag page then
      let url := pageUrl base page
      let ls := pageLinks url
      if ls.isEmpty then
        let rest := fmpLoop base flag pageLinks (page + 1) fuel acc tot
        (rest.1, rest.2.1, .fetching page url :: .noLinks page :: rest.2.2)
      else
        let acc2 := acc ++ ls
        let rest := fmpLoop base flag pageLinks (page + 1) fuel acc2 acc2.length
        (rest.1, rest.2.1, .fetching page url :: .got page ls.length acc2.length :: rest.2.2)
    else (acc, tot, [.stopped page])

/-- `WebScraperWithProgress.fetch_multiple_pages`: pages `1 .. maxPages`,
stopping early only when the running flag has been cleared; a page with no
links logs and continues to the next page. -/
def fetch_multiple_pages (base : String) (maxPages : Nat) (flag : Nat → Bool)
    (pageLinks : String → List String) : List String × Nat × List PageEvent :=
  fmpLoop base flag pageLinks 1 maxPages [] 0

/-- The detail loop of `run_scraper`: iterates the discovered links; at the
top of each iteration reads the running flag (`flag i` for iteration `i`)
and breaks when cleared; otherwise lets the progress-reporting wrapper bump
`current_article` (`cur`), parses the detail page, and applies the
content-length floor and the keyword filter before keeping the record.
Returns the kept records, the final `current_article`, and the number of
`parse_article_detail` calls performed. -/
def detailLoop (minLen : Nat) (keywords : List String) (flag : Nat → Bool)
    (parseArt : String → Option ArticleRecord) :
    List String → Nat → Nat → List ArticleRecord → List ArticleRecord × Nat × Nat
  | [], _, cur, acc => (acc, cur, 0)
  | l :: ls, i, cur, acc =>
    if flag i then
      let cur2 := cur + 1
      match parseArt l with
      | none =>
        let rest := detailLoop minLen keywords flag parseArt ls (i + 1) cur2 acc
        (rest.1, rest.2.1, rest.2.2 + 1)
      | some art =>
        let content := pyStrip (art.content.getD "")
        if pyLen content < minLen then
          let rest := detailLoop minLen keywords flag parseArt ls (i + 1) cur2 acc
          (rest.1, rest.2.1, rest.2.2 + 1)
        else if !keywords.isEmpty
            && !(keywords.any (fun k => pyIn k ((art.title.getD "") ++ "\n" ++ content))) then
          let rest := detailLoop minLen keywords flag parseArt ls (i + 1) cur2 acc
          (rest.1, rest.2.1, rest.2.2 + 1)
        else
          let rest := detailLoop minLen keywords flag parseArt ls (i + 1) cur2 (acc ++ [art])
          (rest.1, rest.2.1, rest.2.2 + 1)
    else (acc, cur, 0)

/-- Terminal state of one `run_scraper` invocation: the running flag after
the `finally`, the final `current_article`, the records persisted to
`last_articles` / the CSV sink, and `scraping_status["error"]`. -/
structure RunResult where
  is_running : Bool
  current_article : Nat
  saved : List ArticleRecord
  error : Option String
deriving DecidableEq

/-- `web_app.run_scraper`.  `pageFlag` / `detailFlag` are the values of the
shared running flag read at the top of the page loop and of the detail loop;
`fault`, when present, models an unexpected exception raised in the `try`
body (its message and the `current_article` value at the raise point), which
the `except` branch records in `scraping_status["error"]` and the `finally`
still clears the running flag; `priorLast` is the pre-existing
`last_articles` value, left in place when the body ends before reaching the
persistence line. -/
def run_scraper (minLen : Nat) (keywords : List String) (base : String) (maxPages : Nat)
    (pageFlag : Nat → Bool) (pageLinks : String → List String) (detailFlag : Nat → Bool)
    (parseArt : String → Option ArticleRecord) (priorLast : List ArticleRecord)
    (fault : Option (String × Nat)) : RunResult :=
  match fault with
  | some (e, curAt) =>
    { is_running := false, current_article := curAt, saved := priorLast,
      error := some ("爬虫执行出错: " ++ e) }
  | none =>
    let links := (fetch_multiple_pages base maxPages pageFlag pageLinks).1
    if links.isEmpty then
      { is_running := false, current_article := 0, saved := priorLast, error := none }
    else
      let res := detailLoop minLen keywords detailFlag parseArt links 0 0 []
      { is_running := false, current_article := res.2.1, saved := res.1, error := none }

/-! ## Concrete instances used by the theorems and their witnesses -/

/-- Tag-name selector engine: one concrete instantiation of the CSS oracle,
correct for the plain tag selectors (`"a"`, `"h1"`, `"p"`, ...) used by the
default configuration. -/
def cssTag : Css := fun sel d => findAllList (fun tg => tg = sel) d

/-- Zero jitter source. -/
def jitZ : Nat → ℚ := fun _ => 0

/-- Identity-like urljoin oracle (returns the href unchanged). -/
def ujW : String → String → String := fun _ h => h

/-- Configuration whose only selector maps `title` to `h1`. -/
def cfgTitleH1 : ScraperConfig :=
  { selectors := fun f => if f = "title" then some "h1" else none,
    max_retries := 3, retry_delay := 2, min_read_count := 100, min_interaction_count := 10 }

/-- Document with a single `<h1>` heading. -/
def docHello : Doc := nodesOf [el "h1" [.text " Hello "]]

/-- Detail page with both an `<h1>` (matched by the `title` selector) and a
`<title>` element. -/
def docC9 : Doc :=
  nodesOf [el "html" [el "head" [el "title" [.text "DocTitle"]],
                      el "body" [el "h1" [.text "Heading"]]]]

/-- Attempt oracle: every attempt transports a 200 response. -/
def attOk200 : Nat → Attempt := fun _ => .ok ⟨200, "detail-page"⟩

/-- Attempt oracle: every attempt transports a 404 response. -/
def attOk404 : Nat → Attempt := fun _ => .ok ⟨404, "not-found"⟩

/-- Attempt oracle: every attempt times out. -/
def attTimeout : Nat → Attempt := fun _ => .fail .timeout

/-- Configuration with a single retry budget and no selectors. -/
def cfgOneRetry : ScraperConfig :=
  { selectors := fun _ => none, max_retries := 1, retry_delay := 2,
    min_read_count := 100, min_interaction_count := 10 }

/-- Configuration with three retries (the default) and no selectors. -/
def cfgThreeRetries : ScraperConfig :=
  { selectors := fun _ => none, max_retries := 3, retry_delay := 2,
    min_read_count := 100, min_interaction_count := 10 }

/-- Configuration whose only selector maps `read_count` to `span`. -/
def cfgReadSpan : ScraperConfig :=
  { selectors := fun f => if f = "read_count" then some "span" else none,
    max_retries := 3, retry_delay := 2, min_read_count := 100, min_interaction_count := 10 }

/-- Document whose `<span>` holds a formatted read count. -/
def docReads : Doc := nodesOf [el "span" [.text " 12,345 次 "]]

/-- Document whose `<span>` holds no digits. -/
def docNoDigits : Doc := nodesOf [el "span" [.text "暂无数据"]]

/-- Document with a paragraph and no match for `span`. -/
def docPlainP : Doc := nodesOf [el "p" [.text "plain paragraph"]]

/-- Classifier configuration with thresholds 5 and 7. -/
def bsCfgW : ScraperConfig :=
  { selectors := fun _ => none, max_retries := 3, retry_delay := 2,
    min_read_count := 5, min_interaction_count := 7 }

/-- List page with no anchors at all. -/
def docNoAnchors : Doc := nodesOf [el "p" [.text "hello"]]

/-- List page with one anchor whose href is a bare fragment (filtered out). -/
def docAnchorShort : Doc :=
  nodesOf [Node.elem "a" [("href", "#")] (nodesOf [.text "link text long"])]

/-- Per-page link oracle for the two-page scenario: two links on the base
page, none elsewhere. -/
def pageLinksW : String → List String :=
  fun u => if u = "http://site/list" then ["http://site/a1", "http://site/a2"] else []

/-- A 200-character content string. -/
def contentX : String := String.mk (List.replicate 200 'x')

/-- Record with long content produced for a given detail URL. -/
def recW (u : String) : ArticleRecord :=
  { title := some u, author := none, publish_time := none,
    read_count := 0, like_count := 0, collect_count := 0,
    summary := none, content := some contentX, detail_url := u,
    is_bestseller := false, status_code := some 200, error := none }

/-- Five discovered detail links. -/
def links5 : List String :=
  ["http://s/1", "http://s/2", "http://s/3", "http://s/4", "http://s/5"]

/-- Page oracle returning the five links for every page. -/
def pageLinks5 : String → List String := fun _ => links5

/-- Running-flag schedule: cleared after the first detail iteration. -/
def stopAfter1 : Nat → Bool := fun i => i == 0

/-! ## Claim theorems -/

/-- C2: `is_bestseller` is a pure predicate: for all non-negative integers
and configured thresholds the result equals `read_count > min_read AND
interaction_count > min_interaction` with `interaction_count = like_count +
collect_count`; both inequalities are strict, so an article exactly at
either threshold yields `false`. -/
theorem is_bestseller_strict_threshold (cfg : ScraperConfig) (read like collect : Nat) :
    (is_bestseller cfg read (like + collect) = true ↔
      cfg.min_read_count < read ∧ cfg.min_interaction_count < like + collect)
    ∧ (read = cfg.min_read_count → is_bestseller cfg read (like + collect) = false)
    ∧ (like + collect = cfg.min_interaction_count →
        is_bestseller cfg read (like + collect) = false) := by
  refine ⟨by simp [is_bestseller], ?_, ?_⟩
  · intro h
    subst h
    simp [is_bestseller]
  · intro h
    simp [is_bestseller, h]

/-- Witness for C2 at thresholds `min_read = 5`, `min_interaction = 7`. -/
theorem is_bestseller_strict_threshold_witness :
    (is_bestseller bsCfgW 8 (3 + 9) = true ↔ bsCfgW.min_read_count < 8 ∧ bsCfgW.min_interaction_count < 3 + 9)
    ∧ is_bestseller bsCfgW 5 (3 + 4) = false
    ∧ is_bestseller bsCfgW 8 (3 + 4) = false := by
  refine ⟨(is_bestseller_strict_threshold bsCfgW 8 3 9).1, ?_, ?_⟩
  · exact (is_bestseller_strict_threshold bsCfgW 5 3 4).2.1 rfl
  · exact (is_bestseller_strict_threshold bsCfgW 8 3 4).2.2 rfl

/-- C1: the claim says `extract_text` selects the first element matching the
field's selector and returns its trimmed text.  On the code it is false: for
a field WITH a configured selector `extract_text` always returns Python
`None`, because its select/trim/truncate body is unreachable dead code
stranded inside `extract_content`; here, on a document whose `h1` matches
with text `Hello`, the code yields `none` while the spec-modelled extractor
yields `"Hello"`. -/
theorem extract_text_dead_code_eval :
    extract_text cfgTitleH1 cssTag docHello "title" (some 50) = none
    ∧ extractTextSpec cfgTitleH1 cssTag docHello "title" (some 50) = "Hello" := by
  exact ⟨rfl, rfl⟩

/-- C9: the claim says the persisted title is the title-selector text when
non-empty, else the document title, else the URL.  On the code the
title-selector tier can never fire (`extract_text` returns `None` whenever a
selector is configured), so on a page whose `h1` (the configured title
selector) reads `Heading` and whose `<title>` reads `DocTitle`, the record's
title is `DocTitle`, not `Heading`. -/
theorem parse_detail_title_ignores_selector_eval :
    (parse_article_detail cfgTitleH1 cssTag (fun _ => docC9) attOk200 jitZ
        "http://e.x/art").map ArticleRecord.title = some (some "DocTitle")
    ∧ (cssTag "h1" docC9).map elemText = ["Heading"] := by
  exact ⟨rfl, rfl⟩

/-- C8: `extract_number` strips commas from the matched element's trimmed
text, takes the first contiguous digit run anywhere in it and parses it as
an integer; it returns 0 when the field has no selector, no element matches,
or no digits occur; on `"12,345 次"` it returns `12345`. -/
theorem extract_number_first_digit_run :
    (∀ (cfg : ScraperConfig) (css : Css) (soup : Doc) (field : String),
      cfg.selectors field = none → extract_number cfg css soup field = 0)
    ∧ (∀ (cfg : ScraperConfig) (css : Css) (soup : Doc) (field sel : String),
      cfg.selectors field = some sel → sel.data.isEmpty = false → css sel soup = [] →
        extract_number cfg css soup field = 0)
    ∧ (∀ (cfg : ScraperConfig) (css : Css) (soup : Doc) (field sel : String)
        (e : Node) (rest : List Node),
      cfg.selectors field = some sel → sel.data.isEmpty = false → css sel soup = e :: rest →
        extract_number cfg css soup field =
          match firstDigitRun (removeCommas (pyStrip (elemText e))).data with
          | some ds => digitsToNat ds
          | none => 0)
    ∧ extract_number cfgReadSpan cssTag docReads "read_count" = 12345
    ∧ extract_number cfgReadSpan cssTag docNoDigits "read_count" = 0 := by
  refine ⟨?_, ?_, ?_, by decide, by decide⟩
  · intro cfg css soup field h
    simp [extract_number, h]
  · intro cfg css soup field sel h1 h2 h3
    simp [extract_number, h1, h2, h3]
  · intro cfg css soup field sel e rest h1 h2 h3
    simp [extract_number, h1, h2, h3]

/-- Witness for C8's quantified parts at concrete inputs. -/
theorem extract_number_first_digit_run_witness :
    extract_number cfgReadSpan cssTag docReads "author" = 0
    ∧ extract_number cfgReadSpan cssTag docPlainP "read_count" = 0
    ∧ extract_number cfgReadSpan cssTag docReads "read_count" = 12345 := by
  refine ⟨extract_number_first_digit_run.1 cfgReadSpan cssTag docReads "author" rfl,
    extract_number_first_digit_run.2.1 cfgReadSpan cssTag docPlainP "read_count" "span" rfl rfl rfl,
    ?_⟩
  have h := extract_number_first_digit_run.2.2.1 cfgReadSpan cssTag docReads "read_count" "span"
    (el "span" [.text " 12,345 次 "]) [] rfl rfl rfl
  exact h.trans (by decide)

/-- C3: an attempt that succeeds at the transport level — any HTTP status,
including non-200 — is returned immediately by `make_request` with no
further attempt and no backoff sleep; and a non-200 status on a fetched
detail page is recorded on the article record as `status_code` plus the
`http_<code>` error tag rather than being treated as a fetch failure. -/
theorem make_request_transport_success_immediate :
    (∀ (cfg : ScraperConfig) (att : Nat → Attempt) (jit : Nat → ℚ) (r : Response),
      1 ≤ cfg.max_retries → att 0 = .ok r →
        make_request cfg att jit = (some r, ⟨1, [], none⟩))
    ∧ (∀ (cfg : ScraperConfig) (css : Css) (parseHtml : String → Doc) (att : Nat → Attempt)
        (jit : Nat → ℚ) (url : String) (r : Response),
      (make_request cfg att jit).1 = some r → r.status_code ≠ 200 →
        (parse_article_detail cfg css parseHtml att jit url).map
            (fun rec => (rec.status_code, rec.error)) =
          some (some r.status_code, some ("http_" ++ toString r.status_code))) := by
  constructor
  · intro cfg att jit r h1 h2
    obtain ⟨n, hn⟩ : ∃ n, cfg.max_retries = n + 1 := ⟨cfg.max_retries - 1, by omega⟩
    rw [make_request, hn]
    simp [makeRequestLoop, h2]
  · intro cfg css parseHtml att jit url r hmk h200
    simp [parse_article_detail, hmk, parseArticleDetailFetched, h200]

/-- Witness for C3: a first-attempt 404 response is returned at once with a
one-attempt trace, and the record carries `status_code = 404` with error tag
`http_404`. -/
theorem make_request_transport_success_immediate_witness :
    make_request cfgThreeRetries attOk404 jitZ = (some ⟨404, "not-found"⟩, ⟨1, [], none⟩)
    ∧ (parse_article_detail cfgThreeRetries cssTag (fun _ => NodeList.nil) attOk404 jitZ
        "http://u/x").map (fun rec => (rec.status_code, rec.error)) =
      some (some 404, some "http_404") := by
  constructor
  · exact make_request_transport_success_immediate.1 cfgThreeRetries attOk404 jitZ
      ⟨404, "not-found"⟩ (by decide) rfl
  · have h := make_request_transport_success_immediate.2 cfgThreeRetries cssTag
      (fun _ => NodeList.nil) attOk404 jitZ "http://u/x" ⟨404, "not-found"⟩ rfl (by decide)
    exact h.trans (by decide)

/-- List-shifting helper for the backoff trace. -/
theorem range_map_shift (F : Nat → ℚ) (g i : Nat) :
    (List.range (g + 1)).map (fun a => F (i + a)) =
      F i :: (List.range g).map (fun a => F (i + 1 + a)) := by
  rw [List.range_succ_eq_map, List.map_cons, List.map_map]
  have ht : List.map ((fun a => F (i + a)) ∘ Nat.succ) (List.range g) =
      List.map (fun a => F (i + 1 + a)) (List.range g) := by
    apply List.map_congr_left
    intro a _
    show F (i + Nat.succ a) = F (i + 1 + a)
    congr 1
    omega
  rw [ht]
  simp

/-- Trace of the retry loop when every attempt raises a timeout, from
attempt `i` with matching remaining fuel. -/
theorem makeRequestLoop_all_timeout (cfg : ScraperConfig) (att : Nat → Attempt) (jit : Nat → ℚ)
    (hatt : ∀ i, att i = .fail .timeout) :
    ∀ fuel i, 1 ≤ fuel → i + fuel = cfg.max_retries →
      makeRequestLoop cfg att jit i fuel =
        (none, ⟨fuel,
          (List.range (fuel - 1)).map (fun a => cfg.retry_delay * 2 ^ (i + a) + jit (i + a)),
          some .timeout⟩) := by
  intro fuel
  induction fuel with
  | zero => intro i h1 _; omega
  | succ f ih =>
    intro i h1 h2
    match hf : f with
    | 0 =>
      have hi : ¬ i < cfg.max_retries - 1 := by omega
      simp [makeRequestLoop, hatt i, hi]
    | g + 1 =>
      have hi : i < cfg.max_retries - 1 := by omega
      have hrec := ih (i + 1) (by omega) (by omega)
      rw [makeRequestLoop, hatt i]
      dsimp only
      rw [if_pos hi, hrec]
      simp only [Prod.mk.injEq, FetchTrace.mk.injEq, Nat.add_sub_cancel]
      refine ⟨trivial, trivial, ?_, trivial⟩
      exact (range_map_shift (fun a => cfg.retry_delay * 2 ^ a + jit a) g i).symm

/-- C4: on an endpoint where every attempt times out, `make_request`
performs exactly `max_retries` attempts, sleeping
`retry_delay * 2 ^ attempt + jitter(attempt)` between consecutive attempts
(with each jitter drawn uniformly from `[0, 1)`), and ends with no body and
failure kind `timeout`. -/
theorem make_request_timeout_exhausts_retries (cfg : ScraperConfig) (att : Nat → Attempt)
    (jit : Nat → ℚ) (h1 : 1 ≤ cfg.max_retries) (hatt : ∀ i, att i = .fail .timeout)
    (_hjit : ∀ i, 0 ≤ jit i ∧ jit i < 1) :
    make_request cfg att jit =
      (none, ⟨cfg.max_retries,
        (List.range (cfg.max_retries - 1)).map (fun a => cfg.retry_delay * 2 ^ a + jit a),
        some .timeout⟩) := by
  have h := makeRequestLoop_all_timeout cfg att jit hatt cfg.max_retries 0 h1 (by omega)
  simpa [make_request] using h

/-- Witness for C4 with the default budget of 3 retries and base delay 2. -/
theorem make_request_timeout_exhausts_retries_witness :
    make_request cfgThreeRetries attTimeout (fun _ => 0) =
      (none, ⟨3, (List.range 2).map (fun a => (2 : ℚ) * 2 ^ a + 0), some .timeout⟩) := by
  have h := make_request_timeout_exhausts_retries cfgThreeRetries attTimeout (fun _ => 0)
    (by decide) (fun _ => rfl) (fun _ => by norm_num)
  exact h

/-- C10: when the detail fetch yields nothing, `parse_article_detail` still
returns a complete record with empty string fields, zero counters,
`is_bestseller = false`, no status code and error tag `request_failed`; on a
fetched page the record's error is absent exactly when the status is 200 and
is `http_<code>` otherwise. -/
theorem parse_detail_failure_record_and_error_tag :
    (∀ (cfg : ScraperConfig) (css : Css) (parseHtml : String → Doc) (att : Nat → Attempt)
        (jit : Nat → ℚ) (url : String),
      (make_request cfg att jit).1 = none →
        parse_article_detail cfg css parseHtml att jit url =
          some { title := some "", author := some "", publish_time := some "",
                 read_count := 0, like_count := 0, collect_count := 0,
                 summary := some "", content := some "", detail_url := url,
                 is_bestseller := false, status_code := none,
                 error := some "request_failed" })
    ∧ (∀ (cfg : ScraperConfig) (css : Css) (parseHtml : String → Doc) (att : Nat → Attempt)
        (jit : Nat → ℚ) (url : String) (r : Response),
      (make_request cfg att jit).1 = some r →
        (parse_article_detail cfg css parseHtml att jit url).map
            (fun rec => (rec.status_code, rec.error)) =
          some (some r.status_code,
            if r.status_code = 200 then none else some ("http_" ++ toString r.status_code))) := by
  constructor
  · intro cfg css parseHtml att jit url hmk
    simp [parse_article_detail, hmk, parseArticleDetailFetched, requestFailedRecord]
  · intro cfg css parseHtml att jit url r hmk
    simp [parse_article_detail, hmk, parseArticleDetailFetched]

/-- Witness for C10: an exhausted fetch yields the `request_failed` record;
a 404 page yields `status_code = 404` and error `http_404`. -/
theorem parse_detail_failure_record_and_error_tag_witness :
    parse_article_detail cfgOneRetry cssTag (fun _ => NodeList.nil) attTimeout jitZ
        "http://u/y" =
      some { title := some "", author := some "", publish_time := some "",
             read_count := 0, like_count := 0, collect_count := 0,
             summary := some "", content := some "", detail_url := "http://u/y",
             is_bestseller := false, status_code := none, error := some "request_failed" }
    ∧ (parse_article_detail cfgOneRetry cssTag (fun _ => NodeList.nil) attOk404 jitZ
        "http://u/y").map (fun rec => (rec.status_code, rec.error)) =
      some (some 404, some "http_404") := by
  constructor
  · exact parse_detail_failure_record_and_error_tag.1 cfgOneRetry cssTag
      (fun _ => NodeList.nil) attTimeout jitZ "http://u/y" rfl
  · have h := parse_detail_failure_record_and_error_tag.2 cfgOneRetry cssTag
      (fun _ => NodeList.nil) attOk404 jitZ "http://u/y" ⟨404, "not-found"⟩ rfl
    exact h.trans (by decide)

/-- Every page in `page .. page + fuel - 1` is attempted by the page loop
while the running flag stays set, and a page yielding zero links gets a
no-links log entry, the loop continuing instead of aborting. -/
theorem fmpLoop_attempts_pages (base : String) (flag : Nat → Bool)
    (pageLinks : String → List String) (hflag : ∀ i, flag i = true) :
    ∀ (fuel page : Nat) (acc : List String) (tot p : Nat), page ≤ p → p < page + fuel →
      PageEvent.fetching p (pageUrl base p) ∈
        (fmpLoop base flag pageLinks page fuel acc tot).2.2
      ∧ (pageLinks (pageUrl base p) = [] →
          PageEvent.noLinks p ∈ (fmpLoop base flag pageLinks page fuel acc tot).2.2) := by
  intro fuel
  induction fuel with
  | zero => intro page acc tot p h1 h2; omega
  | succ f ih =>
    intro page acc tot p h1 h2
    by_cases hls : (pageLinks (pageUrl base page)).isEmpty = true
    · simp only [fmpLoop, hflag, if_true, hls]
      by_cases hp : p = page
      · subst hp
        refine ⟨List.mem_cons_self _ _, fun _ => ?_⟩
        exact List.mem_cons_of_mem _ (List.mem_cons_self _ _)
      · have h := ih (page + 1) acc tot p (by omega) (by omega)
        exact ⟨List.mem_cons_of_mem _ (List.mem_cons_of_mem _ h.1),
          fun hE => List.mem_cons_of_mem _ (List.mem_cons_of_mem _ (h.2 hE))⟩
    · simp only [fmpLoop, hflag, if_true, hls, if_false, Bool.false_eq_true]
      by_cases hp : p = page
      · subst hp
        refine ⟨List.mem_cons_self _ _, fun hE => ?_⟩
        rw [hE] at hls
        exact absurd rfl hls
      · have h := ih (page + 1) (acc ++ pageLinks (pageUrl base page))
          (acc ++ pageLinks (pageUrl base page)).length p (by omega) (by omega)
        exact ⟨List.mem_cons_of_mem _ (List.mem_cons_of_mem _ h.1),
          fun hE => List.mem_cons_of_mem _ (List.mem_cons_of_mem _ (h.2 hE))⟩

/-- C5: the page loop attempts every page number up to `maxPages` while the
running flag stays set, logging and continuing past pages that yield zero
links; in the concrete 2-page scenario (page 1 yields two valid links, page
2 yields none) page 2 is still attempted, a no-links event is logged for it,
and the run completes with two total links. -/
theorem fetch_multiple_pages_zero_links_continue :
    (∀ (base : String) (flag : Nat → Bool) (pageLinks : String → List String)
        (maxPages p : Nat),
      (∀ i, flag i = true) → 1 ≤ p → p ≤ maxPages →
        PageEvent.fetching p (pageUrl base p) ∈
          (fetch_multiple_pages base maxPages flag pageLinks).2.2
        ∧ (pageLinks (pageUrl base p) = [] →
            PageEvent.noLinks p ∈ (fetch_multiple_pages base maxPages flag pageLinks).2.2))
    ∧ fetch_multiple_pages "http://site/list" 2 (fun _ => true) pageLinksW =
        (["http://site/a1", "http://site/a2"], 2,
          [.fetching 1 "http://site/list", .got 1 2 2,
           .fetching 2 "http://site/list?page=2", .noLinks 2]) := by
  constructor
  · intro base flag pageLinks maxPages p hflag h1 h2
    exact fmpLoop_attempts_pages base flag pageLinks hflag maxPages 1 [] 0 p h1 (by omega)
  · decide

/-- Witness for C5: in the concrete 2-page scenario, page 2 (which yields
zero links) is attempted and gets its no-links log event. -/
theorem fetch_multiple_pages_zero_links_continue_witness :
    PageEvent.fetching 2 (pageUrl "http://site/list" 2) ∈
      (fetch_multiple_pages "http://site/list" 2 (fun _ => true) pageLinksW).2.2
    ∧ PageEvent.noLinks 2 ∈
      (fetch_multiple_pages "http://site/list" 2 (fun _ => true) pageLinksW).2.2 := by
  have h := fetch_multiple_pages_zero_links_continue.1 "http://site/list" (fun _ => true)
    pageLinksW 2 2 (fun _ => rfl) (by norm_num) (by norm_num)
  exact ⟨h.1, h.2 (by decide)⟩

set_option maxRecDepth 40000 in
/-- C6: clearing the stop flag after one of five links has been processed
halts the detail loop before any further fetch (`parse_article_detail` is
called exactly once), with the running flag false at termination,
`current_article = 1`, and the already-collected record persisted; and for
every input — including a modelled unexpected internal failure — the job
never terminates with the running flag still true. -/
theorem run_scraper_cancellation_and_finally :
    (∀ (minLen : Nat) (keywords : List String) (base : String) (maxPages : Nat)
        (pageFlag : Nat → Bool) (pageLinks : String → List String) (detailFlag : Nat → Bool)
        (parseArt : String → Option ArticleRecord) (priorLast : List ArticleRecord)
        (fault : Option (String × Nat)),
      (run_scraper minLen keywords base maxPages pageFlag pageLinks detailFlag parseArt
        priorLast fault).is_running = false)
    ∧ run_scraper 200 [] "http://s/list" 1 (fun _ => true) pageLinks5 stopAfter1
        (fun u => some (recW u)) [] none =
        { is_running := false, current_article := 1, saved := [recW "http://s/1"],
          error := none }
    ∧ (detailLoop 200 [] stopAfter1 (fun u => some (recW u)) links5 0 0 []).2.2 = 1 := by
  refine ⟨?_, ?_, ?_⟩
  · intro minLen keywords base maxPages pageFlag pageLinks detailFlag parseArt priorLast fault
    cases fault with
    | none =>
      simp only [run_scraper]
      split
      · rfl
      · rfl
    | some p =>
      obtain ⟨e, c⟩ := p
      rfl
  · decide
  · decide

/-- C7: on a list page with zero anchor elements whose article-links
selector matches nothing, `fetch_article_links` returns exactly the page URL
itself; when the page does contain anchors but every candidate is filtered
out, it returns the empty list. -/
theorem fetch_article_links_degenerate_fallback :
    (∀ (cfg : ScraperConfig) (uj : String → String → String) (css : Css)
        (parseHtml : String → Doc) (att : Nat → Attempt) (jit : Nat → ℚ)
        (url : String) (r : Response),
      (make_request cfg att jit).1 = some r →
      countAnchors (parseHtml r.text) = 0 →
      css ((cfg.selectors "article_links").getD "a") (parseHtml r.text) = [] →
        fetch_article_links cfg uj css parseHtml att jit url = [url])
    ∧ (∀ (cfg : ScraperConfig) (uj : String → String → String) (css : Css)
        (parseHtml : String → Doc) (att : Nat → Attempt) (jit : Nat → ℚ)
        (url : String) (r : Response),
      (make_request cfg att jit).1 = some r →
      0 < countAnchors (parseHtml r.text) →
      discoveredLinks cfg uj css url (parseHtml r.text) = [] →
        fetch_article_links cfg uj css parseHtml att jit url = []) := by
  constructor
  · intro cfg uj css parseHtml att jit url r hmk hanch hcss
    simp [fetch_article_links, hmk, discoveredLinks, hcss, hanch]
  · intro cfg uj css parseHtml att jit url r hmk hanch hdl
    have hne : countAnchors (parseHtml r.text) ≠ 0 := by omega
    simp [fetch_article_links, hmk, hdl, hne]

/-- Witness for C7: an anchor-free page yields `[pageURL]`; a page whose
only anchor is a bare-fragment link (filtered out) yields `[]`. -/
theorem fetch_article_links_degenerate_fallback_witness :
    fetch_article_links cfgTitleH1 ujW cssTag (fun _ => docNoAnchors) attOk200 jitZ
        "http://p/1" = ["http://p/1"]
    ∧ fetch_article_links cfgTitleH1 ujW cssTag (fun _ => docAnchorShort) attOk200 jitZ
        "http://p/2" = [] := by
  constructor
  · exact fetch_article_links_degenerate_fallback.1 cfgTitleH1 ujW cssTag
      (fun _ => docNoAnchors) attOk200 jitZ "http://p/1" ⟨200, "detail-page"⟩ rfl rfl rfl
  · exact fetch_article_links_degenerate_fallback.2 cfgTitleH1 ujW cssTag
      (fun _ => docAnchorShort) attOk200 jitZ "http://p/2" ⟨200, "detail-page"⟩ rfl
      (by decide) rfl

end PaChong
